import Mathlib

/-!
Shallow embedding of the data-quality analysis module of this repository
(the JavaScript file exporting `analyzeDataQuality`, together with its
private helpers `analyzeColumns`, `calculateQualityMetrics`,
`generateRecommendations`, `inferDataType`, `identifyDataTypes`,
`isValidEmail`, `isValidDate`, `isValidURL`, `detectOutliers` and
`calculateMedian`), plus theorems settling the frozen claims C1 - C10.

Modelling conventions:
* JavaScript values occurring in a dataset cell are modelled by the
  inductive `Value` (null, undefined, string, number, boolean).  Numbers
  are modelled by `Int`: every concrete input exercised by the claims is
  integral, and IEEE-754 doubles are outside a shallow embedding.  All
  score/percentage arithmetic is carried out in `ℚ`.
* `Number(v).toFixed(2)` produces a string that the source immediately
  uses numerically (comparisons such as `stats.nullPercentage > 20`
  coerce it back); it is modelled by `round2`, rounding to 2 decimals
  (JavaScript's `toFixed` rounds halves up, as does `round`).
* `new Date(value)` and `new URL(string)` are platform library calls; the
  embedding takes them as explicit function parameters (`dOracle`,
  `uOracle`).  The guard `if (!value) return false` of `isValidDate` is
  modelled concretely (`jsFalsy`).  Concrete instances in witnesses use
  oracles whose answers on the values involved agree with every
  JavaScript engine.
* Issue and recommendation `message`/`suggestion` strings interpolate
  numbers into prose; the claims never inspect the prose, so issues and
  recommendations are modelled by their discriminating fields
  (type, severity, count, priority, category, column).
-/

set_option maxRecDepth 16384

namespace DataQuality

/-- A JavaScript value that can occur in a dataset cell. -/
inductive Value where
  | vnull
  | vundefined
  | vstr (s : String)
  | vint (n : Int)
  | vbool (b : Bool)
deriving DecidableEq, Repr

/-- JavaScript `String(v)` on the value forms above. -/
def Value.toStr : Value → String
  | .vnull => "null"
  | .vundefined => "undefined"
  | .vstr s => s
  | .vint n => toString n
  | .vbool b => if b then "true" else "false"

/-- JavaScript truthiness of a `Value` (`if (v)`), as used by
`values.filter((v) => v && !isValidEmail(v))`. -/
def Value.truthy : Value → Bool
  | .vnull => false
  | .vundefined => false
  | .vstr s => !(s == "")
  | .vint n => !(n == 0)
  | .vbool b => b

/-- JavaScript falsiness, the guard `if (!value) return false`. -/
def jsFalsy (v : Value) : Bool := !v.truthy

/-- The null-likeness test of `analyzeColumns`:
`v === null || v === undefined || v === '' || v === 'null' || v === 'undefined'`. -/
def isNullLike : Value → Bool
  | .vnull => true
  | .vundefined => true
  | .vstr s => s == "" || s == "null" || s == "undefined"
  | _ => false

/-- The keep-filter used for uniqueness, samples and type inference:
`v !== null && v !== undefined && v !== ''`. -/
def keepValue : Value → Bool
  | .vnull => false
  | .vundefined => false
  | .vstr s => !(s == "")
  | _ => true

/-- Character class `[^\s@]` of the email regular expression. -/
def okEmailChar (c : Char) : Bool := !c.isWhitespace && !(c == '@')

/-- The test of `/^[^\s@]+@[^\s@]+\.[^\s@]+$/` on a string: exactly one
`@`; a nonempty whitespace-free local part before it; a whitespace-free
domain part after it containing a `.` that is neither its first nor its
last character (the `[^\s@]+` runs may themselves contain further dots). -/
def isValidEmailStr (s : String) : Bool :=
  let cs := s.toList
  let localPart := cs.takeWhile (fun c => !(c == '@'))
  let domainPart := (cs.dropWhile (fun c => !(c == '@'))).drop 1
  cs.count '@' == 1 && !localPart.isEmpty && localPart.all okEmailChar &&
    domainPart.all okEmailChar && (domainPart.drop 1).dropLast.contains '.'

/-- `isValidEmail(value)` of the source: the regex applied to `String(value)`. -/
def isValidEmail (v : Value) : Bool := isValidEmailStr v.toStr

/-- `isValidDate(value)` of the source: `if (!value) return false;` then
`new Date(value)` validity, the latter supplied as the oracle `dOracle`. -/
def isValidDate (dOracle : Value → Bool) (v : Value) : Bool :=
  if jsFalsy v then false else dOracle v

/-- `isValidURL(value)` of the source: `new URL(String(value))` does not
throw, supplied as the oracle `uOracle` on the stringified value. -/
def isValidURL (uOracle : String → Bool) (v : Value) : Bool :=
  uOracle v.toStr

/-- The lower-cased tokens accepted by the boolean rule. -/
def boolTokens : List String := ["true", "false", "1", "0", "yes", "no"]

/-- `String.toLowerCase()` (ASCII case folding, the relevant fragment). -/
def toLowerStr (s : String) : String := String.mk (s.toList.map Char.toLower)

/-- One value's test in the boolean rule:
`['true','false','1','0','yes','no'].includes(String(v).toLowerCase())`. -/
def isBoolToken (v : Value) : Bool := boolTokens.contains (toLowerStr v.toStr)

/-- JavaScript `Number(v)`, restricted to the integral fragment modelled
here; `none` is `NaN`.  `Number(null) = 0`, `Number(undefined) = NaN`,
booleans map to 0/1, and a string is trimmed and then must be empty
(yielding 0) or an optionally signed run of digits. -/
def jsNumber : Value → Option Int
  | .vnull => some 0
  | .vundefined => none
  | .vint n => some n
  | .vbool b => some (if b then 1 else 0)
  | .vstr s =>
    let t := ((s.toList.dropWhile Char.isWhitespace).reverse.dropWhile
      Char.isWhitespace).reverse
    if t.isEmpty then some 0
    else
      let signDigits : Int × List Char :=
        match t with
        | '+' :: rest => ((1 : Int), rest)
        | '-' :: rest => ((-1 : Int), rest)
        | l => ((1 : Int), l)
      if !signDigits.2.isEmpty && signDigits.2.all Char.isDigit then
        some (signDigits.1 *
          ((signDigits.2.foldl (fun a c => a * 10 + (c.toNat - '0'.toNat)) (0 : Nat) : Nat) : Int))
      else none

/-- One value's test in the numeric rule:
`!isNaN(Number(v)) && Number(v).toString() === v.toString()`. -/
def numericRoundTrip (v : Value) : Bool :=
  match jsNumber v with
  | none => false
  | some n => toString n == v.toStr

/-- The inferred column types of the source (`inferDataType` results). -/
inductive DType where
  | unknown
  | email
  | boolean
  | date
  | numeric
  | url
  | text
deriving DecidableEq, Repr

/-- `inferDataType(values)`: filter out `null`/`undefined`/`''`, return
`unknown` on an empty remainder, otherwise run the ordered cascade of
conjunctive rules, falling through to `text`. -/
def inferDataType (dOracle : Value → Bool) (uOracle : String → Bool)
    (values : List Value) : DType :=
  let nonNullValues := values.filter keepValue
  if nonNullValues.isEmpty then .unknown
  else if nonNullValues.all isValidEmail then .email
  else if nonNullValues.all isBoolToken then .boolean
  else if nonNullValues.all (isValidDate dOracle) then .date
  else if nonNullValues.all numericRoundTrip then .numeric
  else if nonNullValues.all (isValidURL uOracle) then .url
  else .text

/-- Result record of `detectOutliers`; the short-circuit return carries
no `bounds` field, hence the `Option`. -/
structure OutlierResult where
  count : Nat
  values : List ℚ
  bounds : Option (ℚ × ℚ)
deriving DecidableEq, Repr

/-- `detectOutliers(values)`: fewer than 4 values short-circuit; else the
positional-quartile IQR rule.  `values.sort((a,b) => a-b)` sorts the
array numerically ascending; on rationals every sorting algorithm yields
the same list, modelled by insertion sort.  The sort is in place, so the
final `values.filter` runs over the sorted array (same multiset).
`Math.floor(n*0.25)`/`Math.floor(n*0.75)` are exact in doubles for every
array length. -/
def detectOutliers (values : List ℚ) : OutlierResult :=
  if values.length < 4 then { count := 0, values := [], bounds := none }
  else
    let sorted := values.insertionSort (· ≤ ·)
    let q1Index := Nat.floor ((values.length : ℚ) * 0.25)
    let q3Index := Nat.floor ((values.length : ℚ) * 0.75)
    let q1 := sorted.getD q1Index 0
    let q3 := sorted.getD q3Index 0
    let iqr := q3 - q1
    let lowerBound := q1 - 1.5 * iqr
    let upperBound := q3 + 1.5 * iqr
    let outliers := sorted.filter (fun v => v < lowerBound || upperBound < v)
    { count := outliers.length, values := outliers,
      bounds := some (lowerBound, upperBound) }

/-- `calculateMedian(values)`: middle of the sorted copy, averaging the
two middles for even length. -/
def calculateMedian (values : List ℚ) : ℚ :=
  let sorted := values.insertionSort (· ≤ ·)
  let middle := sorted.length / 2
  if sorted.length % 2 == 1 then sorted.getD middle 0
  else (sorted.getD (middle - 1) 0 + sorted.getD middle 0) / 2

/-- `x.toFixed(2)` read back as a number: round to 2 decimal places. -/
def round2 (x : ℚ) : ℚ := ((round (x * 100) : ℤ) : ℚ) / 100

/-- Issue severities. -/
inductive Severity where
  | error
  | warning
  | info
deriving DecidableEq, Repr

/-- The discriminating `type` field of an issue. -/
inductive IssueType where
  | high_null_values
  | outliers_detected
  | invalid_emails
deriving DecidableEq, Repr

/-- An issue record: `type`, `severity`, and its count field when the
source attaches one (`outlierCount`/`invalidCount`); the prose `message`
is not modelled. -/
structure Issue where
  itype : IssueType
  severity : Severity
  count : Option Nat
deriving DecidableEq, Repr

/-- The per-column `stats` object built by `analyzeColumns`.  Percentage
and average fields hold the numeric reading of the `toFixed(2)` strings;
`min`/`max`/`mean`/`median` are only set on numeric columns, hence the
`Option`. -/
structure ColumnStats where
  column : String
  totalCount : Nat
  nullCount : Nat
  nullPercentage : ℚ
  uniqueCount : Nat
  uniquePercentage : ℚ
  duplicateCount : Int
  dataType : DType
  sampleValues : List Value
  issues : List Issue
  min : Option ℚ
  max : Option ℚ
  mean : Option ℚ
  median : Option ℚ
deriving DecidableEq, Repr

/-- The body of the `columns.forEach` loop of `analyzeColumns`, for one
column's list of cell values (`values = data.map((row) => row[column])`,
whose length is the row count).  The numeric aggregates are computed
exactly when the inferred type is `numeric`; in that case every kept
value round-trips through `Number`, so `jsNumber` is defined on it. -/
def profileColumn (dOracle : Value → Bool) (uOracle : String → Bool)
    (column : String) (values : List Value) : ColumnStats :=
  let totalCount := values.length
  let nullCount := (values.filter isNullLike).length
  let kept := values.filter keepValue
  let uniqueCount := kept.dedup.length
  let nullPercentage := round2 ((nullCount : ℚ) / (totalCount : ℚ) * 100)
  let uniquePercentage := round2 ((uniqueCount : ℚ) / (totalCount : ℚ) * 100)
  let duplicateCount : Int := (totalCount : Int) - (uniqueCount : Int)
  let dataType := inferDataType dOracle uOracle values
  let sampleValues := kept.take 5
  let numValues : List ℚ := kept.map (fun v => ((jsNumber v).getD 0 : ℚ))
  let outliers := detectOutliers numValues
  let invalidEmails := (values.filter (fun v => v.truthy && !isValidEmail v)).length
  let nullIssues : List Issue :=
    if 20 < nullPercentage then [⟨.high_null_values, .warning, none⟩] else []
  let numericIssues : List Issue :=
    if dataType = .numeric && 0 < outliers.count then
      [⟨.outliers_detected, .info, some outliers.count⟩] else []
  let emailIssues : List Issue :=
    if dataType = .email && 0 < invalidEmails then
      [⟨.invalid_emails, .error, some invalidEmails⟩] else []
  { column, totalCount, nullCount, nullPercentage, uniqueCount,
    uniquePercentage, duplicateCount, dataType, sampleValues,
    issues := nullIssues ++ numericIssues ++ emailIssues,
    min := if dataType = .numeric then some ((numValues.min?).getD 0) else none,
    max := if dataType = .numeric then some ((numValues.max?).getD 0) else none,
    mean := if dataType = .numeric then
      some (round2 (numValues.sum / (numValues.length : ℚ))) else none,
    median := if dataType = .numeric then
      some (round2 (calculateMedian numValues)) else none }

/-- A dataset row: a JavaScript object modelled as an ordered
association list of field name / value pairs (object keys are unique). -/
abbrev Record := List (String × Value)

/-- `row[column]`: an absent key reads as `undefined`. -/
def getField (row : Record) (column : String) : Value :=
  (row.lookup column).getD .vundefined

/-- `analyzeColumns(data, columns)`: one `ColumnStats` per column name,
keyed by the column, in column order. -/
def analyzeColumns (dOracle : Value → Bool) (uOracle : String → Bool)
    (data : List Record) (columns : List String) : List (String × ColumnStats) :=
  columns.map (fun column =>
    (column, profileColumn dOracle uOracle column (data.map (fun row => getField row column))))

/-- The metrics object of `calculateQualityMetrics`. -/
structure Metrics where
  completeness : ℚ
  consistency : ℚ
  accuracy : ℚ
  validity : ℚ
  overallQuality : ℚ
deriving DecidableEq, Repr

/-- The number of severity-`error` issues of one column, the quantity
the accuracy and validity accumulators are driven by. -/
def errorIssueCount (a : ColumnStats) : Nat :=
  (a.issues.filter (fun i => i.severity == .error)).length

/-- The per-column step of the four accumulators of
`calculateQualityMetrics` (the `columns.forEach` body), as a fold step
over a 4-tuple (completeness, consistency, accuracy, validity). -/
def metricsStep (acc : ℚ × ℚ × ℚ × ℚ) (p : String × ColumnStats) : ℚ × ℚ × ℚ × ℚ :=
  let a := p.2
  (acc.1 + (1 - (a.nullCount : ℚ) / (a.totalCount : ℚ)) * 100,
   acc.2.1 + (100 - |(a.duplicateCount : ℚ) / (a.totalCount : ℚ)| * 50),
   acc.2.2.1 + max 0 (100 - (errorIssueCount a : ℚ) * 20),
   acc.2.2.2 + (100 - (errorIssueCount a : ℚ) * 25))

/-- `calculateQualityMetrics(data, columnAnalysis)` (the `data` argument
is unused by the source body): accumulate, divide by the column count,
`toFixed(2)`, clamp consistency and validity with `Math.min(100, ·)`,
and average the four resulting numbers. -/
def calculateQualityMetrics (columnAnalysis : List (String × ColumnStats)) : Metrics :=
  let n : ℚ := (columnAnalysis.length : ℚ)
  let s := columnAnalysis.foldl metricsStep (0, 0, 0, 0)
  let completenessScore := round2 (s.1 / n)
  let consistencyScore := min 100 (round2 (s.2.1 / n))
  let accuracyScore := round2 (s.2.2.1 / n)
  let validityScore := min 100 (round2 (s.2.2.2 / n))
  let overallQuality := round2
    ((completenessScore + consistencyScore + accuracyScore + validityScore) / 4)
  { completeness := completenessScore, consistency := consistencyScore,
    accuracy := accuracyScore, validity := validityScore, overallQuality }

/-- Recommendation priorities. -/
inductive Priority where
  | high
  | medium
  | low
deriving DecidableEq, Repr

/-- The `category` field of a recommendation: `missing_data`, the issue
type, or `overall_quality`. -/
inductive RecCategory where
  | missing_data
  | issueCat (t : IssueType)
  | overall_quality
deriving DecidableEq, Repr

/-- A recommendation, modelled by its discriminating fields (the
`suggestion`/`sqlHint` prose is not modelled). -/
structure Recommendation where
  priority : Priority
  category : RecCategory
  column : Option String
deriving DecidableEq, Repr

/-- The recommendations pushed for one column by the
`Object.values(columnAnalysis).forEach` body: the `missing_data` entry
when `col.nullPercentage > 20`, then one entry per issue with priority
`high` for severity `error` and `medium` otherwise. -/
def colRecommendations (p : String × ColumnStats) : List Recommendation :=
  let a := p.2
  (if 20 < a.nullPercentage then
    [{ priority := .high, category := .missing_data, column := some a.column }]
   else []) ++
  a.issues.map (fun i =>
    { priority := if i.severity == .error then .high else .medium,
      category := .issueCat i.itype, column := some a.column })

/-- The final `overall_quality` push: present exactly when
`metrics.overallQuality < 70`. -/
def overallRecommendation (metrics : Metrics) : List Recommendation :=
  if metrics.overallQuality < 70 then
    [{ priority := .high, category := .overall_quality, column := none }]
  else []

/-- `generateRecommendations(columnAnalysis, metrics)`: the pushes of the
column loop in order, the overall push, and `slice(0, 10)`. -/
def generateRecommendations (columnAnalysis : List (String × ColumnStats))
    (metrics : Metrics) : List Recommendation :=
  ((columnAnalysis.foldl (fun acc p => acc ++ colRecommendations p) []) ++
    overallRecommendation metrics).take 10

/-- `identifyDataTypes(data, columns)`. -/
def identifyDataTypes (dOracle : Value → Bool) (uOracle : String → Bool)
    (data : List Record) (columns : List String) : List (String × DType) :=
  columns.map (fun col =>
    (col, inferDataType dOracle uOracle (data.map (fun row => getField row col))))

/-- The `data` argument of `analyzeDataQuality`: `missing` covers the
falsy inputs (`!data`), `notArray` the non-array ones
(`!Array.isArray(data)`), and `arr` an actual array of records. -/
inductive DataInput where
  | missing
  | notArray
  | arr (rows : List Record)
deriving DecidableEq

/-- The full report object returned on the success path. -/
structure Report where
  fileName : String
  rowCount : Nat
  columnCount : Nat
  columns : List String
  preview : List Record
  columnAnalysis : List (String × ColumnStats)
  metrics : Metrics
  recommendations : List Recommendation
  qualityScore : Int
  dataTypes : List (String × DType)
deriving DecidableEq

/-- The return value of `analyzeDataQuality`: either the error-shaped
object `{error, fileName, rowCount: 0, columnCount: 0}` or a report. -/
inductive AnalyzeResult where
  | errorResult (error : String) (fileName : String) (rowCount : Nat) (columnCount : Nat)
  | report (r : Report)
deriving DecidableEq

/-- `analyzeDataQuality(data, fileName)`: validation gate, then column
analysis, metrics, recommendations, and report assembly.
`columns = Object.keys(data[0])`, `data.slice(0, 100)` is the preview,
and `qualityScore = Math.round(metrics.overallQuality)`. -/
def analyzeDataQuality (dOracle : Value → Bool) (uOracle : String → Bool)
    (input : DataInput) (fileName : String) : AnalyzeResult :=
  match input with
  | .missing => .errorResult "Invalid or empty dataset" fileName 0 0
  | .notArray => .errorResult "Invalid or empty dataset" fileName 0 0
  | .arr [] => .errorResult "Invalid or empty dataset" fileName 0 0
  | .arr (first :: rest) =>
    let data := first :: rest
    let columns := first.map (fun kv => kv.1)
    let columnAnalysis := analyzeColumns dOracle uOracle data columns
    let metrics := calculateQualityMetrics columnAnalysis
    let recommendations := generateRecommendations columnAnalysis metrics
    .report
      { fileName := fileName,
        rowCount := data.length,
        columnCount := columns.length,
        columns := columns,
        preview := data.take 100,
        columnAnalysis := columnAnalysis,
        metrics := metrics,
        recommendations := recommendations,
        qualityScore := round metrics.overallQuality,
        dataTypes := identifyDataTypes dOracle uOracle data columns }

/-- `generateDataTypeDistribution(dataTypes)`: tally of inferred types. -/
def generateDataTypeDistribution (dataTypes : List (String × DType)) : List (DType × Nat) :=
  dataTypes.foldl
    (fun dist p =>
      match dist.lookup p.2 with
      | some c => dist.map (fun q => if q.1 = p.2 then (q.1, c + 1) else q)
      | none => dist ++ [(p.2, 1)])
    []

/-- A date oracle answering `false` everywhere: a platform on which none
of the tested strings parses as a date (accurate for the non-date
strings used in the concrete instances below). -/
def dateNever : Value → Bool := fun _ => false

/-- A URL oracle answering `false` everywhere (accurate for the
scheme-less strings used in the concrete instances below). -/
def urlNever : String → Bool := fun _ => false

/-- The classification cascade of §4.2 of the spec as an ordered rule
list: type paired with its per-value test, in source order. -/
def typeRuleList (dOracle : Value → Bool) (uOracle : String → Bool) :
    List (DType × (Value → Bool)) :=
  [(.email, isValidEmail), (.boolean, isBoolToken), (.date, isValidDate dOracle),
   (.numeric, numericRoundTrip), (.url, isValidURL uOracle)]

/-- Ascending numeric sort, the observable behavior of
`values.sort((a, b) => a - b)`. -/
def sortedAsc (vs : List ℚ) : List ℚ := vs.insertionSort (· ≤ ·)

/-- The spec's q1: element of the ascending sort at index `floor(n×0.25)`. -/
def quartile1 (vs : List ℚ) : ℚ :=
  (sortedAsc vs).getD (Nat.floor ((vs.length : ℚ) * 0.25)) 0

/-- The spec's q3: element of the ascending sort at index `floor(n×0.75)`. -/
def quartile3 (vs : List ℚ) : ℚ :=
  (sortedAsc vs).getD (Nat.floor ((vs.length : ℚ) * 0.75)) 0

/-- The spec's lower IQR bound `q1 − 1.5·iqr`. -/
def iqrLowerBound (vs : List ℚ) : ℚ :=
  quartile1 vs - 1.5 * (quartile3 vs - quartile1 vs)

/-- The spec's upper IQR bound `q3 + 1.5·iqr`. -/
def iqrUpperBound (vs : List ℚ) : ℚ :=
  quartile3 vs + 1.5 * (quartile3 vs - quartile1 vs)

/-- Strictly outside the IQR bounds of `vs`. -/
def strictlyOutside (vs : List ℚ) (v : ℚ) : Bool :=
  v < iqrLowerBound vs || iqrUpperBound vs < v

/-- The completeness contribution of one column:
`(1 - nullCount/totalCount) * 100`. -/
def completenessTerm (a : ColumnStats) : ℚ :=
  (1 - (a.nullCount : ℚ) / (a.totalCount : ℚ)) * 100

/-- The consistency contribution of one column:
`100 - |duplicateCount/totalCount| * 50`. -/
def consistencyTerm (a : ColumnStats) : ℚ :=
  100 - |(a.duplicateCount : ℚ) / (a.totalCount : ℚ)| * 50

/-- The accuracy contribution of one column:
`max(0, 100 - errorIssueCount * 20)`. -/
def accuracyTerm (a : ColumnStats) : ℚ :=
  max 0 (100 - (errorIssueCount a : ℚ) * 20)

/-- The validity contribution of one column:
`100 - errorIssueCount * 25`. -/
def validityTerm (a : ColumnStats) : ℚ :=
  100 - (errorIssueCount a : ℚ) * 25

/-- The recommendation list of a result (empty on the error shape). -/
def recsOf : AnalyzeResult → List Recommendation
  | .report r => r.recommendations
  | .errorResult .. => []

/-- The column-analysis mapping of a result (empty on the error shape). -/
def caOf : AnalyzeResult → List (String × ColumnStats)
  | .report r => r.columnAnalysis
  | .errorResult .. => []

/-- A one-column, one-row dataset used to instantiate the profile
invariants. -/
def c5Rows : List Record := [[("a", Value.vstr "x")]]

/-- The single column-analysis entry the analyzer produces on `c5Rows`. -/
def c5Col : String × ColumnStats :=
  ("a", profileColumn dateNever urlNever "a" (c5Rows.map (fun row => getField row "a")))

/-- A column with exactly 20% null-like values (1 of 5). -/
def c7ValuesA : List Value :=
  [.vnull, .vstr "a", .vstr "b", .vstr "c", .vstr "d"]

/-- A column with 300 of 1499 null-like values: nullPercentage renders
to 20.01. -/
def c7ValuesB : List Value :=
  List.replicate 300 Value.vnull ++ List.replicate 1199 (Value.vstr "a")

/-- A single record of seven all-null columns: every column profiles to
100% null, so the run produces 15 raw recommendations (7 missing-data,
7 issue-driven, 1 overall). -/
def c8Row : Record :=
  [("a", .vnull), ("b", .vnull), ("c", .vnull), ("d", .vnull),
   ("e", .vnull), ("f", .vnull), ("g", .vnull)]

/-- The column analysis of the seven-null-column run. -/
def c8Analysis : List (String × ColumnStats) :=
  analyzeColumns dateNever urlNever [c8Row] (c8Row.map (fun kv => kv.1))

/-- The metrics of the seven-null-column run. -/
def c8Metrics : Metrics := calculateQualityMetrics c8Analysis

/-- The raw (untruncated) recommendation list of the seven-null-column
run: the per-column pushes in order followed by the overall push. -/
def c8RawRecs : List Recommendation :=
  c8Analysis.flatMap colRecommendations ++ overallRecommendation c8Metrics

/-- Order-counterexample dataset: column `a` is numeric with one outlier
and no nulls, column `b` is entirely null. -/
def c8OrdData : List Record :=
  [[("a", .vint 0), ("b", .vnull)], [("a", .vint 1), ("b", .vnull)],
   [("a", .vint 2), ("b", .vnull)], [("a", .vint 3), ("b", .vnull)],
   [("a", .vint 4), ("b", .vnull)], [("a", .vint 100), ("b", .vnull)]]

/-- Column `a` of the order-counterexample dataset. -/
def c8AVals : List Value := [.vint 0, .vint 1, .vint 2, .vint 3, .vint 4, .vint 100]

/-- Column `b` of the order-counterexample dataset. -/
def c8BVals : List Value := List.replicate 6 Value.vnull

/-- The recommendation categories the order-counterexample run emits,
in order. -/
def c8OrdCats : List RecCategory :=
  (recsOf (analyzeDataQuality dateNever urlNever (.arr c8OrdData) "f")).map
    (fun x => x.category)

/-- A one-column dataset holding a single well-formed email address. -/
def c10Rows : List Record := [[("e", Value.vstr "a@b.com")]]

/-- The single column-analysis entry the analyzer produces on `c10Rows`. -/
def c10Col : String × ColumnStats :=
  ("e", profileColumn dateNever urlNever "e" (c10Rows.map (fun row => getField row "e")))

/-- A sample column profile used to instantiate the quality scorer. -/
def c4Stats : ColumnStats :=
  { column := "a", totalCount := 4, nullCount := 1, nullPercentage := 25,
    uniqueCount := 3, uniquePercentage := 75, duplicateCount := 1,
    dataType := .text, sampleValues := [], issues := [],
    min := none, max := none, mean := none, median := none }

/-! ### General lemmas -/

theorem length_filter_insertionSort (p : ℚ → Bool) (l : List ℚ) :
    ((l.insertionSort (· ≤ ·)).filter p).length = (l.filter p).length :=
  ((List.perm_insertionSort _ l).filter p).length_eq

theorem round2_mono {x y : ℚ} (h : x ≤ y) : round2 x ≤ round2 y := by
  unfold round2
  have : round (x * 100) ≤ round (y * 100) := by
    rw [round_eq, round_eq]
    exact Int.floor_le_floor (by linarith)
  exact div_le_div_of_nonneg_right (by exact_mod_cast this) (by norm_num)

theorem round2_hundred : round2 (100 : ℚ) = 100 := by
  norm_num [round2, round_eq]

theorem round2_zero : round2 (0 : ℚ) = 0 := by
  norm_num [round2, round_eq]

theorem round2_min_hundred (x : ℚ) : round2 (min 100 x) = min 100 (round2 x) := by
  rcases le_total x 100 with h | h
  · rw [min_eq_right h, min_eq_right]
    calc round2 x ≤ round2 100 := round2_mono h
    _ = 100 := round2_hundred
  · rw [min_eq_left h, round2_hundred, min_eq_left]
    calc (100 : ℚ) = round2 100 := round2_hundred.symm
    _ ≤ round2 x := round2_mono h

theorem round2_nonneg {x : ℚ} (h : 0 ≤ x) : 0 ≤ round2 x := by
  calc (0 : ℚ) = round2 0 := round2_zero.symm
  _ ≤ round2 x := round2_mono h

theorem round2_le_hundred {x : ℚ} (h : x ≤ 100) : round2 x ≤ 100 := by
  calc round2 x ≤ round2 100 := round2_mono h
  _ = 100 := round2_hundred

theorem truthy_keepValue {v : Value} (h : v.truthy = true) : keepValue v = true := by
  cases v <;> simp_all [Value.truthy, keepValue]

theorem profileColumn_totalCount (dOracle : Value → Bool) (uOracle : String → Bool)
    (col : String) (values : List Value) :
    (profileColumn dOracle uOracle col values).totalCount = values.length := rfl

theorem profileColumn_nullCount (dOracle : Value → Bool) (uOracle : String → Bool)
    (col : String) (values : List Value) :
    (profileColumn dOracle uOracle col values).nullCount =
      (values.filter isNullLike).length := rfl

theorem profileColumn_uniqueCount (dOracle : Value → Bool) (uOracle : String → Bool)
    (col : String) (values : List Value) :
    (profileColumn dOracle uOracle col values).uniqueCount =
      ((values.filter keepValue).dedup).length := rfl

theorem profileColumn_nullPercentage (dOracle : Value → Bool) (uOracle : String → Bool)
    (col : String) (values : List Value) :
    (profileColumn dOracle uOracle col values).nullPercentage =
      round2 (((values.filter isNullLike).length : ℚ) / (values.length : ℚ) * 100) := rfl

theorem profileColumn_dataType (dOracle : Value → Bool) (uOracle : String → Bool)
    (col : String) (values : List Value) :
    (profileColumn dOracle uOracle col values).dataType =
      inferDataType dOracle uOracle values := rfl

theorem profileColumn_issues (dOracle : Value → Bool) (uOracle : String → Bool)
    (col : String) (values : List Value) :
    (profileColumn dOracle uOracle col values).issues =
      (if 20 < round2 (((values.filter isNullLike).length : ℚ) /
            (values.length : ℚ) * 100)
        then [⟨.high_null_values, .warning, none⟩] else []) ++
      (if inferDataType dOracle uOracle values = DType.numeric &&
            0 < (detectOutliers ((values.filter keepValue).map
              (fun v => ((jsNumber v).getD 0 : ℚ)))).count
        then [⟨.outliers_detected, .info,
          some (detectOutliers ((values.filter keepValue).map
            (fun v => ((jsNumber v).getD 0 : ℚ)))).count⟩] else []) ++
      (if inferDataType dOracle uOracle values = DType.email &&
            0 < (values.filter (fun v => v.truthy && !isValidEmail v)).length
        then [⟨.invalid_emails, .error,
          some (values.filter (fun v => v.truthy && !isValidEmail v)).length⟩]
        else []) := rfl

theorem report_columnAnalysis {dOracle : Value → Bool} {uOracle : String → Bool}
    {first : Record} {rest : List Record} {fileName : String} {r : Report}
    (h : analyzeDataQuality dOracle uOracle (.arr (first :: rest)) fileName = .report r) :
    r.columnAnalysis =
      analyzeColumns dOracle uOracle (first :: rest) (first.map (fun kv => kv.1)) := by
  simp only [analyzeDataQuality, AnalyzeResult.report.injEq] at h
  rw [← h]

theorem profileColumn_column (dOracle : Value → Bool) (uOracle : String → Bool)
    (col : String) (values : List Value) :
    (profileColumn dOracle uOracle col values).column = col := rfl

theorem profileColumn_duplicateCount (dOracle : Value → Bool) (uOracle : String → Bool)
    (col : String) (values : List Value) :
    (profileColumn dOracle uOracle col values).duplicateCount =
      (values.length : Int) - (((values.filter keepValue).dedup).length : Int) := rfl

theorem report_recsOf (dOracle : Value → Bool) (uOracle : String → Bool)
    (first : Record) (rest : List Record) (fileName : String) :
    recsOf (analyzeDataQuality dOracle uOracle (.arr (first :: rest)) fileName) =
      generateRecommendations
        (analyzeColumns dOracle uOracle (first :: rest) (first.map (fun kv => kv.1)))
        (calculateQualityMetrics
          (analyzeColumns dOracle uOracle (first :: rest) (first.map (fun kv => kv.1)))) := rfl

theorem foldl_append_eq_flatMap {α β : Type} (f : α → List β) :
    ∀ (l : List α) (acc : List β),
      l.foldl (fun a x => a ++ f x) acc = acc ++ l.flatMap f := by
  intro l
  induction l with
  | nil => intro acc; simp
  | cons x t ih => intro acc; simp [ih]

theorem generateRecommendations_eq (ca : List (String × ColumnStats)) (metrics : Metrics) :
    generateRecommendations ca metrics =
      (ca.flatMap colRecommendations ++ overallRecommendation metrics).take 10 := by
  simp [generateRecommendations, foldl_append_eq_flatMap]

theorem allNull_nullPercentage (dOracle : Value → Bool) (uOracle : String → Bool)
    (col : String) (values : List Value)
    (h2 : values.filter isNullLike = values) (h3 : values ≠ []) :
    (profileColumn dOracle uOracle col values).nullPercentage = 100 := by
  rw [profileColumn_nullPercentage, h2]
  have hpos : 0 < values.length := List.length_pos.mpr h3
  have hne : ((values.length : ℕ) : ℚ) ≠ 0 := by
    exact_mod_cast Nat.pos_iff_ne_zero.mp hpos
  rw [div_self hne, one_mul, round2_hundred]

theorem allNull_issues (dOracle : Value → Bool) (uOracle : String → Bool)
    (col : String) (values : List Value)
    (h1 : values.filter keepValue = []) (h2 : values.filter isNullLike = values)
    (h3 : values ≠ []) :
    (profileColumn dOracle uOracle col values).issues =
      [⟨.high_null_values, .warning, none⟩] := by
  have hdt : inferDataType dOracle uOracle values = DType.unknown := by
    simp [inferDataType, h1]
  have hpos : 0 < values.length := List.length_pos.mpr h3
  have hne : ((values.length : ℕ) : ℚ) ≠ 0 := by
    exact_mod_cast Nat.pos_iff_ne_zero.mp hpos
  rw [profileColumn_issues, h2, hdt, div_self hne, one_mul, round2_hundred]
  norm_num
  exact ⟨nofun, nofun⟩

theorem allNull_completenessTerm (dOracle : Value → Bool) (uOracle : String → Bool)
    (col : String) (values : List Value)
    (h2 : values.filter isNullLike = values) (h3 : values ≠ []) :
    completenessTerm (profileColumn dOracle uOracle col values) = 0 := by
  have hpos : 0 < values.length := List.length_pos.mpr h3
  have hne : ((values.length : ℕ) : ℚ) ≠ 0 := by
    exact_mod_cast Nat.pos_iff_ne_zero.mp hpos
  simp only [completenessTerm, profileColumn_nullCount, profileColumn_totalCount, h2]
  rw [div_self hne]
  ring

theorem allNull_consistencyTerm (dOracle : Value → Bool) (uOracle : String → Bool)
    (col : String) (values : List Value)
    (h1 : values.filter keepValue = []) (h3 : values ≠ []) :
    consistencyTerm (profileColumn dOracle uOracle col values) = 50 := by
  have hpos : 0 < values.length := List.length_pos.mpr h3
  have hne : ((values.length : ℕ) : ℚ) ≠ 0 := by
    exact_mod_cast Nat.pos_iff_ne_zero.mp hpos
  simp only [consistencyTerm, profileColumn_duplicateCount, profileColumn_totalCount,
    h1, List.dedup_nil, List.length_nil, Nat.cast_zero, sub_zero]
  push_cast
  rw [div_self hne]
  norm_num

theorem errorIssueCount_eq_zero {a : ColumnStats}
    (h : ∀ i ∈ a.issues, i.severity ≠ Severity.error) : errorIssueCount a = 0 := by
  simp only [errorIssueCount, List.length_eq_zero, List.filter_eq_nil_iff]
  intro i hi
  simpa using h i hi

theorem allNull_accuracyTerm (dOracle : Value → Bool) (uOracle : String → Bool)
    (col : String) (values : List Value)
    (h1 : values.filter keepValue = []) (h2 : values.filter isNullLike = values)
    (h3 : values ≠ []) :
    accuracyTerm (profileColumn dOracle uOracle col values) = 100 := by
  have hei : errorIssueCount (profileColumn dOracle uOracle col values) = 0 := by
    apply errorIssueCount_eq_zero
    rw [allNull_issues dOracle uOracle col values h1 h2 h3]
    intro i hi
    simp at hi
    rw [hi]
    simp
  simp [accuracyTerm, hei]

theorem allNull_validityTerm (dOracle : Value → Bool) (uOracle : String → Bool)
    (col : String) (values : List Value)
    (h1 : values.filter keepValue = []) (h2 : values.filter isNullLike = values)
    (h3 : values ≠ []) :
    validityTerm (profileColumn dOracle uOracle col values) = 100 := by
  have hei : errorIssueCount (profileColumn dOracle uOracle col values) = 0 := by
    apply errorIssueCount_eq_zero
    rw [allNull_issues dOracle uOracle col values h1 h2 h3]
    intro i hi
    simp at hi
    rw [hi]
    simp
  simp [validityTerm, hei]

theorem allNull_colRecs (dOracle : Value → Bool) (uOracle : String → Bool)
    (col : String) (values : List Value)
    (h1 : values.filter keepValue = []) (h2 : values.filter isNullLike = values)
    (h3 : values ≠ []) :
    colRecommendations (col, profileColumn dOracle uOracle col values) =
      [⟨.high, .missing_data, some col⟩,
       ⟨.medium, .issueCat .high_null_values, some col⟩] := by
  simp only [colRecommendations, allNull_nullPercentage dOracle uOracle col values h2 h3,
    allNull_issues dOracle uOracle col values h1 h2 h3, profileColumn_column]
  norm_num
  exact nofun

theorem vnull_colRecs (dOracle : Value → Bool) (uOracle : String → Bool) (col : String) :
    colRecommendations (col, profileColumn dOracle uOracle col [Value.vnull]) =
      [⟨.high, .missing_data, some col⟩,
       ⟨.medium, .issueCat .high_null_values, some col⟩] :=
  allNull_colRecs dOracle uOracle col [Value.vnull] (by decide) (by decide) (by decide)

theorem vnull_completenessTerm (dOracle : Value → Bool) (uOracle : String → Bool)
    (col : String) :
    completenessTerm (profileColumn dOracle uOracle col [Value.vnull]) = 0 :=
  allNull_completenessTerm dOracle uOracle col [Value.vnull] (by decide) (by decide)

theorem vnull_consistencyTerm (dOracle : Value → Bool) (uOracle : String → Bool)
    (col : String) :
    consistencyTerm (profileColumn dOracle uOracle col [Value.vnull]) = 50 :=
  allNull_consistencyTerm dOracle uOracle col [Value.vnull] (by decide) (by decide)

theorem vnull_accuracyTerm (dOracle : Value → Bool) (uOracle : String → Bool)
    (col : String) :
    accuracyTerm (profileColumn dOracle uOracle col [Value.vnull]) = 100 :=
  allNull_accuracyTerm dOracle uOracle col [Value.vnull] (by decide) (by decide) (by decide)

theorem vnull_validityTerm (dOracle : Value → Bool) (uOracle : String → Bool)
    (col : String) :
    validityTerm (profileColumn dOracle uOracle col [Value.vnull]) = 100 :=
  allNull_validityTerm dOracle uOracle col [Value.vnull] (by decide) (by decide) (by decide)

theorem foldl_metricsStep (ca : List (String × ColumnStats)) :
    ∀ acc : ℚ × ℚ × ℚ × ℚ,
      ca.foldl metricsStep acc =
        (acc.1 + (ca.map (fun p => completenessTerm p.2)).sum,
         acc.2.1 + (ca.map (fun p => consistencyTerm p.2)).sum,
         acc.2.2.1 + (ca.map (fun p => accuracyTerm p.2)).sum,
         acc.2.2.2 + (ca.map (fun p => validityTerm p.2)).sum) := by
  induction ca with
  | nil => intro acc; simp
  | cons p t ih =>
    intro acc
    simp only [List.foldl_cons, List.map_cons, List.sum_cons, ih, metricsStep,
      completenessTerm, consistencyTerm, accuracyTerm, validityTerm, Prod.mk.injEq]
    refine ⟨by ring, by ring, by ring, by ring⟩

theorem c8Analysis_eq :
    c8Analysis = ["a", "b", "c", "d", "e", "f", "g"].map
      (fun col => (col, profileColumn dateNever urlNever col [Value.vnull])) := by
  simp [c8Analysis, analyzeColumns, c8Row, getField, List.lookup]

theorem c8Metrics_eq : c8Metrics = ⟨0, 50, 100, 100, 125 / 2⟩ := by
  rw [c8Metrics, c8Analysis_eq]
  simp only [calculateQualityMetrics, foldl_metricsStep, List.map_map, Function.comp,
    vnull_completenessTerm, vnull_consistencyTerm, vnull_accuracyTerm, vnull_validityTerm,
    List.map_cons, List.map_nil, List.sum_cons, List.sum_nil, List.length_cons,
    List.length_nil, List.length_map, zero_add]
  norm_num [round2, round_eq, Metrics.mk.injEq]

theorem c8RawRecs_eq :
    c8RawRecs =
      [⟨.high, .missing_data, some "a"⟩, ⟨.medium, .issueCat .high_null_values, some "a"⟩,
       ⟨.high, .missing_data, some "b"⟩, ⟨.medium, .issueCat .high_null_values, some "b"⟩,
       ⟨.high, .missing_data, some "c"⟩, ⟨.medium, .issueCat .high_null_values, some "c"⟩,
       ⟨.high, .missing_data, some "d"⟩, ⟨.medium, .issueCat .high_null_values, some "d"⟩,
       ⟨.high, .missing_data, some "e"⟩, ⟨.medium, .issueCat .high_null_values, some "e"⟩,
       ⟨.high, .missing_data, some "f"⟩, ⟨.medium, .issueCat .high_null_values, some "f"⟩,
       ⟨.high, .missing_data, some "g"⟩, ⟨.medium, .issueCat .high_null_values, some "g"⟩,
       ⟨.high, .overall_quality, none⟩] := by
  rw [c8RawRecs, c8Analysis_eq, c8Metrics_eq]
  simp [vnull_colRecs, overallRecommendation]
  norm_num

theorem c8AVals_kept : c8AVals.filter keepValue = c8AVals := by decide

theorem c8AVals_nullFilter : c8AVals.filter isNullLike = [] := by decide

theorem c8AVals_dataType :
    inferDataType dateNever urlNever c8AVals = DType.numeric := by decide

theorem c8AVals_numValues :
    c8AVals.map (fun v => ((jsNumber v).getD 0 : ℚ)) = [0, 1, 2, 3, 4, 100] := by
  norm_num [c8AVals, jsNumber]

theorem c8A_outliers :
    detectOutliers [0, 1, 2, 3, 4, 100] =
      { count := 1, values := [100], bounds := some (-3.5, 8.5) } := by
  have h4 : ¬ ([0, 1, 2, 3, 4, 100] : List ℚ).length < 4 := by decide
  have hsort : ([0, 1, 2, 3, 4, 100] : List ℚ).insertionSort (· ≤ ·) =
      [0, 1, 2, 3, 4, 100] := by decide
  have hi1 : ⌊(([0, 1, 2, 3, 4, 100] : List ℚ).length : ℚ) * 0.25⌋₊ = 1 := by
    norm_num [Nat.floor_eq_iff]
  have hi3 : ⌊(([0, 1, 2, 3, 4, 100] : List ℚ).length : ℚ) * 0.75⌋₊ = 4 := by
    norm_num [Nat.floor_eq_iff]
  simp only [detectOutliers, if_neg h4, hsort, hi1, hi3, OutlierResult.mk.injEq]
  norm_num

theorem c8A_pct :
    (profileColumn dateNever urlNever "a" c8AVals).nullPercentage = 0 := by
  rw [profileColumn_nullPercentage, c8AVals_nullFilter]
  norm_num [c8AVals, round2, round_eq]

theorem c8A_issues :
    (profileColumn dateNever urlNever "a" c8AVals).issues =
      [⟨.outliers_detected, .info, some 1⟩] := by
  rw [profileColumn_issues, c8AVals_nullFilter, c8AVals_dataType, c8AVals_kept,
    c8AVals_numValues, c8A_outliers]
  norm_num [c8AVals, round2, round_eq]
  exact nofun

theorem c8A_colRecs :
    colRecommendations ("a", profileColumn dateNever urlNever "a" c8AVals) =
      [⟨.medium, .issueCat .outliers_detected, some "a"⟩] := by
  simp only [colRecommendations, c8A_pct, c8A_issues, profileColumn_column]
  norm_num
  exact nofun

theorem c8A_completenessTerm :
    completenessTerm (profileColumn dateNever urlNever "a" c8AVals) = 100 := by
  simp only [completenessTerm, profileColumn_nullCount, profileColumn_totalCount,
    c8AVals_nullFilter]
  norm_num [c8AVals]

theorem c8A_consistencyTerm :
    consistencyTerm (profileColumn dateNever urlNever "a" c8AVals) = 100 := by
  have hd : (c8AVals.filter keepValue).dedup = c8AVals := by decide
  simp only [consistencyTerm, profileColumn_duplicateCount, profileColumn_totalCount, hd]
  norm_num [c8AVals]

theorem c8A_accuracyTerm :
    accuracyTerm (profileColumn dateNever urlNever "a" c8AVals) = 100 := by
  simp [accuracyTerm, errorIssueCount, c8A_issues]

theorem c8A_validityTerm :
    validityTerm (profileColumn dateNever urlNever "a" c8AVals) = 100 := by
  simp [validityTerm, errorIssueCount, c8A_issues]

theorem c8B_colRecs :
    colRecommendations ("b", profileColumn dateNever urlNever "b" c8BVals) =
      [⟨.high, .missing_data, some "b"⟩,
       ⟨.medium, .issueCat .high_null_values, some "b"⟩] :=
  allNull_colRecs dateNever urlNever "b" c8BVals (by decide) (by decide) (by decide)

theorem c8B_completenessTerm :
    completenessTerm (profileColumn dateNever urlNever "b" c8BVals) = 0 :=
  allNull_completenessTerm dateNever urlNever "b" c8BVals (by decide) (by decide)

theorem c8B_consistencyTerm :
    consistencyTerm (profileColumn dateNever urlNever "b" c8BVals) = 50 :=
  allNull_consistencyTerm dateNever urlNever "b" c8BVals (by decide) (by decide)

theorem c8B_accuracyTerm :
    accuracyTerm (profileColumn dateNever urlNever "b" c8BVals) = 100 :=
  allNull_accuracyTerm dateNever urlNever "b" c8BVals (by decide) (by decide) (by decide)

theorem c8B_validityTerm :
    validityTerm (profileColumn dateNever urlNever "b" c8BVals) = 100 :=
  allNull_validityTerm dateNever urlNever "b" c8BVals (by decide) (by decide) (by decide)

theorem c8Ord_analysis :
    analyzeColumns dateNever urlNever c8OrdData ["a", "b"] =
      [("a", profileColumn dateNever urlNever "a" c8AVals),
       ("b", profileColumn dateNever urlNever "b" c8BVals)] := by
  simp [analyzeColumns, c8OrdData, getField, List.lookup, c8AVals, c8BVals,
    List.replicate]

theorem c8Ord_metrics :
    calculateQualityMetrics
        [("a", profileColumn dateNever urlNever "a" c8AVals),
         ("b", profileColumn dateNever urlNever "b" c8BVals)] =
      ⟨50, 75, 100, 100, 325 / 4⟩ := by
  simp only [calculateQualityMetrics, foldl_metricsStep, List.map_cons, List.map_nil,
    List.sum_cons, List.sum_nil, List.length_cons, List.length_nil, zero_add,
    c8A_completenessTerm, c8A_consistencyTerm, c8A_accuracyTerm, c8A_validityTerm,
    c8B_completenessTerm, c8B_consistencyTerm, c8B_accuracyTerm, c8B_validityTerm]
  norm_num [round2, round_eq, Metrics.mk.injEq]

theorem c8Ord_cats :
    c8OrdCats = [.issueCat .outliers_detected, .missing_data,
      .issueCat .high_null_values] := by
  have h0 : recsOf (analyzeDataQuality dateNever urlNever (.arr c8OrdData) "f") =
      generateRecommendations (analyzeColumns dateNever urlNever c8OrdData ["a", "b"])
        (calculateQualityMetrics (analyzeColumns dateNever urlNever c8OrdData ["a", "b"])) :=
    rfl
  rw [c8OrdCats, h0, c8Ord_analysis, c8Ord_metrics, generateRecommendations_eq]
  simp [c8A_colRecs, c8B_colRecs, overallRecommendation]
  norm_num

/-! ### Claim theorems -/

/-- C1: type inference is an ordered cascade over the rules email,
boolean, date, numeric, url — the first rule passed by every kept value
wins, falling through to `text` — and on the column values
`["0","1","0","1"]` the inferred type is `boolean`, not `numeric`. -/
theorem c1_type_inference_cascade :
    (∀ (dOracle : Value → Bool) (uOracle : String → Bool) (values : List Value),
      inferDataType dOracle uOracle values =
        if (values.filter keepValue).isEmpty then .unknown
        else
          match (typeRuleList dOracle uOracle).find?
              (fun rule => (values.filter keepValue).all rule.2) with
          | some rule => rule.1
          | none => .text) ∧
    (∀ (dOracle : Value → Bool) (uOracle : String → Bool),
      inferDataType dOracle uOracle
        [.vstr "0", .vstr "1", .vstr "0", .vstr "1"] = .boolean) := by
  constructor
  · intro dOracle uOracle values
    simp only [inferDataType, typeRuleList]
    cases hE : (values.filter keepValue).isEmpty
    · cases h1 : (values.filter keepValue).all isValidEmail <;>
      cases h2 : (values.filter keepValue).all isBoolToken <;>
      cases h3 : (values.filter keepValue).all (isValidDate dOracle) <;>
      cases h4 : (values.filter keepValue).all numericRoundTrip <;>
      cases h5 : (values.filter keepValue).all (isValidURL uOracle) <;>
      simp [List.find?, hE, h1, h2, h3, h4, h5]
    · simp [hE]
  · intro dOracle uOracle
    rfl

/-- C2: `analyzeDataQuality` returns the error-shaped value
`{error, fileName, rowCount: 0, columnCount: 0}` exactly when the
dataset is missing, not an array, or empty, and otherwise returns a full
report (so no error shape) echoing the fileName. -/
theorem c2_validation_gate :
    ∀ (dOracle : Value → Bool) (uOracle : String → Bool) (input : DataInput)
      (fileName : String),
      (analyzeDataQuality dOracle uOracle input fileName =
          .errorResult "Invalid or empty dataset" fileName 0 0 ↔
        input = .missing ∨ input = .notArray ∨ input = .arr []) ∧
      ((input = .missing ∨ input = .notArray ∨ input = .arr []) ∨
        ∃ r : Report, analyzeDataQuality dOracle uOracle input fileName = .report r ∧
          r.fileName = fileName ∧ r.rowCount ≠ 0) := by
  intro dOracle uOracle input fileName
  constructor
  · cases input with
    | missing => simp [analyzeDataQuality]
    | notArray => simp [analyzeDataQuality]
    | arr rows =>
      cases rows with
      | nil => simp [analyzeDataQuality]
      | cons first rest => simp [analyzeDataQuality]
  · cases input with
    | missing => exact Or.inl (Or.inl rfl)
    | notArray => exact Or.inl (Or.inr (Or.inl rfl))
    | arr rows =>
      cases rows with
      | nil => exact Or.inl (Or.inr (Or.inr rfl))
      | cons first rest => exact Or.inr ⟨_, rfl, rfl, by simp⟩

/-- C3: the outlier detector short-circuits to zero outliers below 4
values; otherwise it reports exactly the values strictly outside the
positional-quartile IQR bounds, the bounds themselves, and on
`[1,2,3,4,5,100]` yields bounds `[-2.5, 9.5]` and one outlier. -/
theorem c3_outlier_detector :
    (∀ vs : List ℚ, vs.length < 4 →
      detectOutliers vs = { count := 0, values := [], bounds := none }) ∧
    (∀ vs : List ℚ, 4 ≤ vs.length →
      detectOutliers vs =
        { count := (vs.filter (strictlyOutside vs)).length,
          values := (sortedAsc vs).filter (strictlyOutside vs),
          bounds := some (iqrLowerBound vs, iqrUpperBound vs) }) ∧
    detectOutliers [1, 2, 3, 4, 5, 100] =
      { count := 1, values := [100], bounds := some (-2.5, 9.5) } := by
  refine ⟨?_, ?_, ?_⟩
  · intro vs h
    simp [detectOutliers, h]
  · intro vs h
    have h4 : ¬ vs.length < 4 := Nat.not_lt.mpr h
    simp only [detectOutliers, if_neg h4, OutlierResult.mk.injEq]
    unfold strictlyOutside iqrLowerBound iqrUpperBound quartile1 quartile3 sortedAsc
    exact ⟨length_filter_insertionSort _ vs, rfl, rfl⟩
  · have h4 : ¬ ([1, 2, 3, 4, 5, 100] : List ℚ).length < 4 := by decide
    have hsort : ([1, 2, 3, 4, 5, 100] : List ℚ).insertionSort (· ≤ ·) =
        [1, 2, 3, 4, 5, 100] := by decide
    have hi1 : ⌊(([1, 2, 3, 4, 5, 100] : List ℚ).length : ℚ) * 0.25⌋₊ = 1 := by
      norm_num [Nat.floor_eq_iff]
    have hi3 : ⌊(([1, 2, 3, 4, 5, 100] : List ℚ).length : ℚ) * 0.75⌋₊ = 4 := by
      norm_num [Nat.floor_eq_iff]
    simp only [detectOutliers, if_neg h4, hsort, hi1, hi3, OutlierResult.mk.injEq]
    norm_num

/-- C4: the quality scorer accumulates the four documented per-column
terms, divides by the column count, clamps exactly consistency and
validity at 100, rounds to 2 decimals, and sets overallQuality to the
rounded mean of the four resulting dimension scores. -/
theorem c4_quality_scorer :
    ∀ ca : List (String × ColumnStats), ca ≠ [] →
      (calculateQualityMetrics ca).completeness =
          round2 ((ca.map (fun p => completenessTerm p.2)).sum / (ca.length : ℚ)) ∧
      (calculateQualityMetrics ca).consistency =
          round2 (min 100 ((ca.map (fun p => consistencyTerm p.2)).sum / (ca.length : ℚ))) ∧
      (calculateQualityMetrics ca).accuracy =
          round2 ((ca.map (fun p => accuracyTerm p.2)).sum / (ca.length : ℚ)) ∧
      (calculateQualityMetrics ca).validity =
          round2 (min 100 ((ca.map (fun p => validityTerm p.2)).sum / (ca.length : ℚ))) ∧
      (calculateQualityMetrics ca).overallQuality =
          round2 (((calculateQualityMetrics ca).completeness +
            (calculateQualityMetrics ca).consistency +
            (calculateQualityMetrics ca).accuracy +
            (calculateQualityMetrics ca).validity) / 4) := by
  intro ca _
  simp [calculateQualityMetrics, foldl_metricsStep, zero_add, round2_min_hundred]

/-- Witness for C4: the scorer equations at a one-column mapping. -/
theorem c4_quality_scorer_witness :
    (calculateQualityMetrics [("a", c4Stats)]).completeness =
        round2 ((([("a", c4Stats)] : List (String × ColumnStats)).map
          (fun p => completenessTerm p.2)).sum /
          (([("a", c4Stats)] : List (String × ColumnStats)).length : ℚ)) ∧
    (calculateQualityMetrics [("a", c4Stats)]).overallQuality =
        round2 (((calculateQualityMetrics [("a", c4Stats)]).completeness +
          (calculateQualityMetrics [("a", c4Stats)]).consistency +
          (calculateQualityMetrics [("a", c4Stats)]).accuracy +
          (calculateQualityMetrics [("a", c4Stats)]).validity) / 4) :=
  ⟨(c4_quality_scorer [("a", c4Stats)] (by simp)).1,
   (c4_quality_scorer [("a", c4Stats)] (by simp)).2.2.2.2⟩

/-- Witness for C3: both branches of the detector at concrete inputs. -/
theorem c3_outlier_detector_witness :
    detectOutliers ([1, 2, 3] : List ℚ) = { count := 0, values := [], bounds := none } ∧
    detectOutliers ([1, 2, 3, 4, 5, 100] : List ℚ) =
      { count := (([1, 2, 3, 4, 5, 100] : List ℚ).filter
          (strictlyOutside [1, 2, 3, 4, 5, 100])).length,
        values := (sortedAsc [1, 2, 3, 4, 5, 100]).filter
          (strictlyOutside [1, 2, 3, 4, 5, 100]),
        bounds := some (iqrLowerBound [1, 2, 3, 4, 5, 100],
          iqrUpperBound [1, 2, 3, 4, 5, 100]) } :=
  ⟨c3_outlier_detector.1 [1, 2, 3] (by decide),
   c3_outlier_detector.2.1 [1, 2, 3, 4, 5, 100] (by decide)⟩

/-- C5 (counterexample): on the dataset `[{a: "null"}]` the analyzer
produces a column profile with `uniqueCount = 1` but
`totalCount - nullCount = 0`, because the uniqueness filter keeps the
literal string `"null"` while the null counter treats it as null-like. -/
theorem c5_counterexample :
    ∃ p ∈ caOf (analyzeDataQuality dateNever urlNever
        (.arr [[("a", Value.vstr "null")]]) "f"),
      ¬ p.2.uniqueCount ≤ p.2.totalCount - p.2.nullCount := by decide

/-- C5 (amended): for every column profile produced by `analyzeDataQuality`,
`nullCount` plus the count of non-null-like values equals `totalCount`,
`0 ≤ nullPercentage ≤ 100`, and `uniqueCount` is at most `totalCount`
minus the count of values that are null, undefined, or the empty string
(the literal strings `"null"`/`"undefined"` are counted by `nullCount`
but not excluded from uniqueness, so the bound with `nullCount` itself
can fail). -/
theorem c5_profile_invariants :
    ∀ (dOracle : Value → Bool) (uOracle : String → Bool) (rows : List Record)
      (fileName : String) (r : Report),
      analyzeDataQuality dOracle uOracle (.arr rows) fileName = .report r →
      ∀ p ∈ r.columnAnalysis,
        p.2.nullCount + ((rows.map (fun row => getField row p.1)).filter
            (fun v => !isNullLike v)).length = p.2.totalCount ∧
        0 ≤ p.2.nullPercentage ∧ p.2.nullPercentage ≤ 100 ∧
        p.2.uniqueCount ≤ p.2.totalCount -
          ((rows.map (fun row => getField row p.1)).filter
            (fun v => !keepValue v)).length := by
  intro dOracle uOracle rows fileName r hrep p hp
  cases rows with
  | nil => simp [analyzeDataQuality] at hrep
  | cons first rest =>
    rw [report_columnAnalysis hrep] at hp
    simp only [analyzeColumns, List.mem_map] at hp
    obtain ⟨col, hcol, hpe⟩ := hp
    subst hpe
    refine ⟨?_, ?_, ?_, ?_⟩
    · simp only [profileColumn_nullCount, profileColumn_totalCount]
      exact (List.length_eq_length_filter_add isNullLike).symm
    · rw [profileColumn_nullPercentage]
      exact round2_nonneg (by positivity)
    · rw [profileColumn_nullPercentage]
      apply round2_le_hundred
      have hnc : (((first :: rest).map (fun row => getField row col)).filter
          isNullLike).length ≤ ((first :: rest).map (fun row => getField row col)).length :=
        List.length_filter_le _ _
      have htc : (0 : ℚ) < ((((first :: rest).map
          (fun row => getField row col)).length : ℕ) : ℚ) := by
        simp
        positivity
      have hdiv : ((((first :: rest).map (fun row => getField row col)).filter
            isNullLike).length : ℚ) /
          ((((first :: rest).map (fun row => getField row col)).length : ℕ) : ℚ) ≤ 1 := by
        rw [div_le_one htc]
        exact_mod_cast hnc
      nlinarith
    · simp only [profileColumn_uniqueCount, profileColumn_totalCount]
      have h1 : (((((first :: rest).map (fun row => getField row col)).filter
            keepValue).dedup)).length ≤
          (((first :: rest).map (fun row => getField row col)).filter keepValue).length :=
        (List.dedup_sublist _).length_le
      have h2 : ((((first :: rest).map (fun row => getField row col)).filter
            keepValue).length) + ((((first :: rest).map (fun row => getField row col)).filter
            (fun v => !keepValue v)).length) =
          (((first :: rest).map (fun row => getField row col))).length :=
        (List.length_eq_length_filter_add keepValue).symm
      omega

/-- Witness for C5: the amended invariants at the dataset `[{a: "x"}]`. -/
theorem c5_profile_invariants_witness :
    c5Col.2.nullCount + ((c5Rows.map (fun row => getField row c5Col.1)).filter
        (fun v => !isNullLike v)).length = c5Col.2.totalCount ∧
    0 ≤ c5Col.2.nullPercentage ∧ c5Col.2.nullPercentage ≤ 100 ∧
    c5Col.2.uniqueCount ≤ c5Col.2.totalCount -
      ((c5Rows.map (fun row => getField row c5Col.1)).filter
        (fun v => !keepValue v)).length :=
  c5_profile_invariants dateNever urlNever c5Rows "f" _ rfl c5Col
    (List.mem_cons_self _ _)

/-- C6 (counterexample): the classifier does not ignore the literal
string `"null"`: on the column `["null"]` it returns `text`, not
`unknown`, although the claim's filtering would leave no values. -/
theorem c6_counterexample :
    inferDataType dateNever urlNever [Value.vstr "null"] ≠ DType.unknown := by decide

/-- C6 (amended): the type classifier filters out exactly `null`,
`undefined`, and the empty string before testing any rule — the literal
strings `"null"`/`"undefined"` are kept — and it returns `unknown`
precisely when no values remain after that filtering. -/
theorem c6_null_filtering :
    ∀ (dOracle : Value → Bool) (uOracle : String → Bool) (values : List Value),
      inferDataType dOracle uOracle values =
        inferDataType dOracle uOracle (values.filter keepValue) ∧
      (inferDataType dOracle uOracle values = .unknown ↔
        values.filter keepValue = []) := by
  intro dOracle uOracle values
  constructor
  · simp [inferDataType, List.filter_filter, Bool.and_self]
  · cases hE : (values.filter keepValue).isEmpty with
    | true =>
      have hnil : values.filter keepValue = [] := List.isEmpty_iff.mp hE
      simp [inferDataType, hE, hnil]
    | false =>
      have hne : values.filter keepValue ≠ [] := by
        intro hnil
        rw [hnil] at hE
        simp at hE
      simp only [inferDataType, hE, Bool.false_eq_true, if_false]
      simp only [iff_false_intro hne, iff_false]
      split_ifs <;> simp

/-- C7: the `high_null_values` warning is appended iff the column's
nullPercentage (the 2-decimal rendering of nullCount/totalCount×100)
strictly exceeds 20; a column at exactly 20 produces no such issue,
while one rendering to 20.01 does. -/
theorem c7_null_threshold :
    (∀ (dOracle : Value → Bool) (uOracle : String → Bool) (col : String)
      (values : List Value),
      ((⟨.high_null_values, .warning, none⟩ : Issue) ∈
          (profileColumn dOracle uOracle col values).issues ↔
        20 < (profileColumn dOracle uOracle col values).nullPercentage) ∧
      (profileColumn dOracle uOracle col values).nullPercentage =
        round2 (((values.filter isNullLike).length : ℚ) /
          (values.length : ℚ) * 100)) ∧
    (profileColumn dateNever urlNever "c" c7ValuesA).nullPercentage = 20 ∧
    (profileColumn dateNever urlNever "c" c7ValuesA).issues = [] ∧
    (profileColumn dateNever urlNever "c" c7ValuesB).nullPercentage = 2001 / 100 ∧
    (⟨.high_null_values, .warning, none⟩ : Issue) ∈
      (profileColumn dateNever urlNever "c" c7ValuesB).issues := by
  have hmain : ∀ (dOracle : Value → Bool) (uOracle : String → Bool) (col : String)
      (values : List Value),
      ((⟨.high_null_values, .warning, none⟩ : Issue) ∈
          (profileColumn dOracle uOracle col values).issues ↔
        20 < (profileColumn dOracle uOracle col values).nullPercentage) ∧
      (profileColumn dOracle uOracle col values).nullPercentage =
        round2 (((values.filter isNullLike).length : ℚ) /
          (values.length : ℚ) * 100) := by
    intro dOracle uOracle col values
    refine ⟨?_, profileColumn_nullPercentage dOracle uOracle col values⟩
    rw [profileColumn_issues, profileColumn_nullPercentage]
    split_ifs with h1 <;> simp [h1]
  have hfA : (c7ValuesA.filter isNullLike).length = 1 := by decide
  have hlA : c7ValuesA.length = 5 := by decide
  have hpctA : (profileColumn dateNever urlNever "c" c7ValuesA).nullPercentage = 20 := by
    rw [profileColumn_nullPercentage, hfA, hlA]
    norm_num [round2, round_eq]
  have hfB : (c7ValuesB.filter isNullLike).length = 300 := by
    simp [c7ValuesB, List.filter_append, List.filter_replicate, isNullLike]
  have hlB : c7ValuesB.length = 1499 := by
    simp [c7ValuesB]
  have hpctB : (profileColumn dateNever urlNever "c" c7ValuesB).nullPercentage =
      2001 / 100 := by
    rw [profileColumn_nullPercentage, hfB, hlB]
    norm_num [round2, round_eq, Int.floor_eq_iff]
  have hdtA : inferDataType dateNever urlNever c7ValuesA = DType.text := by decide
  refine ⟨hmain, hpctA, ?_, hpctB, ?_⟩
  · rw [profileColumn_issues, hfA, hlA, hdtA]
    norm_num [round2, round_eq]
    simp
  · exact (hmain dateNever urlNever "c" c7ValuesB).1.mpr
      (by rw [hpctB]; norm_num)

/-- C8 (counterexample): the recommendation order is per-column, not
missing-data-first: on a dataset whose first column has an outlier issue
(no nulls) and whose second column is all null, the first recommendation
is the per-issue one for column `a` and the missing-data recommendation
for column `b` comes only after it, so the claimed order (all
missing-data recommendations before all per-issue ones) fails. -/
theorem c8_counterexample :
    c8OrdCats = [.issueCat .outliers_detected, .missing_data,
      .issueCat .high_null_values] ∧
    ¬ (∀ i j : ℕ, i < j → j < c8OrdCats.length →
        c8OrdCats.getD j .overall_quality = .missing_data →
        c8OrdCats.getD i .overall_quality = .missing_data) := by
  refine ⟨c8Ord_cats, ?_⟩
  rw [c8Ord_cats]
  intro h
  exact absurd (h 0 1 (by omega) (by simp) (by decide)) (by decide)

/-- C8 (amended): the generator always returns at most 10
recommendations, namely the first 10 of the raw list assembled in
per-column order (each column's missing-data recommendation, if its
nullPercentage exceeds 20, followed by its per-issue recommendations
with priority high for severity error and medium otherwise), with one
overall_quality recommendation appended last exactly when
overallQuality < 70; the engineered seven-null-column run produces 15
raw entries and yields exactly the first 10. -/
theorem c8_recommendation_pipeline :
    (∀ (ca : List (String × ColumnStats)) (metrics : Metrics),
      (generateRecommendations ca metrics).length ≤ 10) ∧
    (∀ (ca : List (String × ColumnStats)) (metrics : Metrics),
      generateRecommendations ca metrics =
        (ca.flatMap colRecommendations ++ overallRecommendation metrics).take 10) ∧
    (∀ metrics : Metrics, overallRecommendation metrics =
      if metrics.overallQuality < 70
        then [⟨.high, .overall_quality, none⟩] else []) ∧
    c8RawRecs.length = 15 ∧
    recsOf (analyzeDataQuality dateNever urlNever (.arr [c8Row]) "f") =
      c8RawRecs.take 10 ∧
    recsOf (analyzeDataQuality dateNever urlNever (.arr [c8Row]) "f") =
      [⟨.high, .missing_data, some "a"⟩, ⟨.medium, .issueCat .high_null_values, some "a"⟩,
       ⟨.high, .missing_data, some "b"⟩, ⟨.medium, .issueCat .high_null_values, some "b"⟩,
       ⟨.high, .missing_data, some "c"⟩, ⟨.medium, .issueCat .high_null_values, some "c"⟩,
       ⟨.high, .missing_data, some "d"⟩, ⟨.medium, .issueCat .high_null_values, some "d"⟩,
       ⟨.high, .missing_data, some "e"⟩,
       ⟨.medium, .issueCat .high_null_values, some "e"⟩] := by
  have h0 : recsOf (analyzeDataQuality dateNever urlNever (.arr [c8Row]) "f") =
      generateRecommendations c8Analysis c8Metrics := rfl
  have h1 : generateRecommendations c8Analysis c8Metrics = c8RawRecs.take 10 := by
    rw [generateRecommendations_eq]
    rfl
  refine ⟨?_, generateRecommendations_eq, fun _ => rfl, ?_, ?_, ?_⟩
  · intro ca metrics
    rw [generateRecommendations_eq]
    exact List.length_take_le _ _
  · rw [c8RawRecs_eq]
    rfl
  · rw [h0, h1]
  · rw [h0, h1, c8RawRecs_eq]
    rfl

/-- C9: the analyzer is deterministic — two calls on the same dataset,
fileName, and platform parsers return identical reports.  The embedding
is a pure function of its inputs; the source consults no clock and no
randomness. -/
theorem c9_determinism :
    ∀ (dOracle : Value → Bool) (uOracle : String → Bool) (input : DataInput)
      (fileName : String),
      analyzeDataQuality dOracle uOracle input fileName =
        analyzeDataQuality dOracle uOracle input fileName :=
  fun _ _ _ _ => rfl

/-- C10: whenever the classifier itself infers `email`, every truthy
value passes the email pattern, so the count feeding `invalid_emails` is
zero; consequently no column profile produced by the analyzer ever
contains an `invalid_emails` issue or any severity-error issue, and
every column's error-issue count (the quantity that reduces accuracy
and validity) is zero. -/
theorem c10_email_errors_unreachable :
    (∀ (dOracle : Value → Bool) (uOracle : String → Bool) (values : List Value),
      inferDataType dOracle uOracle values = DType.email →
      (values.filter (fun v => v.truthy && !isValidEmail v)).length = 0) ∧
    (∀ (dOracle : Value → Bool) (uOracle : String → Bool) (col : String)
      (values : List Value),
      (profileColumn dOracle uOracle col values).issues.filter
        (fun i => i.severity == Severity.error) = [] ∧
      ∀ i ∈ (profileColumn dOracle uOracle col values).issues,
        i.itype ≠ IssueType.invalid_emails) ∧
    (∀ (dOracle : Value → Bool) (uOracle : String → Bool) (rows : List Record)
      (fileName : String) (r : Report),
      analyzeDataQuality dOracle uOracle (.arr rows) fileName = .report r →
      ∀ p ∈ r.columnAnalysis, errorIssueCount p.2 = 0) := by
  have hcount : ∀ (dOracle : Value → Bool) (uOracle : String → Bool)
      (values : List Value),
      inferDataType dOracle uOracle values = DType.email →
      (values.filter (fun v => v.truthy && !isValidEmail v)).length = 0 := by
    intro dOracle uOracle values hemail
    have hall : (values.filter keepValue).all isValidEmail = true := by
      by_contra hno
      have hfalse : (values.filter keepValue).all isValidEmail = false := by
        simpa using hno
      revert hemail
      simp only [inferDataType]
      cases hE : (values.filter keepValue).isEmpty
      · simp only [hE, Bool.false_eq_true, if_false, hfalse]
        split_ifs <;> simp
      · simp [hE]
    rw [List.length_eq_zero, List.filter_eq_nil_iff]
    intro v hv hc
    obtain ⟨ht, hnv⟩ := Bool.and_eq_true_iff.mp hc
    have hvmem : v ∈ values.filter keepValue :=
      List.mem_filter.mpr ⟨hv, truthy_keepValue ht⟩
    have hvalid := List.all_eq_true.mp hall v hvmem
    rw [hvalid] at hnv
    simp at hnv
  have hseg : ∀ (dOracle : Value → Bool) (uOracle : String → Bool)
      (values : List Value),
      (if inferDataType dOracle uOracle values = DType.email &&
            0 < (values.filter (fun v => v.truthy && !isValidEmail v)).length
        then [(⟨.invalid_emails, .error,
          some (values.filter (fun v => v.truthy && !isValidEmail v)).length⟩ : Issue)]
        else []) = [] := by
    intro dOracle uOracle values
    rw [if_neg]
    intro hcond
    obtain ⟨hdt, hlen⟩ := Bool.and_eq_true_iff.mp hcond
    have hdt' : inferDataType dOracle uOracle values = DType.email := of_decide_eq_true hdt
    have hlen' : 0 < (values.filter (fun v => v.truthy && !isValidEmail v)).length :=
      of_decide_eq_true hlen
    rw [hcount dOracle uOracle values hdt'] at hlen'
    exact absurd hlen' (by omega)
  have hpair : ∀ (dOracle : Value → Bool) (uOracle : String → Bool) (col : String)
      (values : List Value),
      (profileColumn dOracle uOracle col values).issues.filter
        (fun i => i.severity == Severity.error) = [] ∧
      ∀ i ∈ (profileColumn dOracle uOracle col values).issues,
        i.itype ≠ IssueType.invalid_emails := by
    intro dOracle uOracle col values
    rw [profileColumn_issues, hseg dOracle uOracle values]
    constructor
    · simp only [List.filter_append]
      split_ifs <;> simp
    · intro i hi
      simp only [List.append_nil, List.mem_append] at hi
      rcases hi with hi | hi <;> revert hi <;> split_ifs <;> simp <;>
        intro hi <;> rw [hi] <;> simp
  refine ⟨hcount, hpair, ?_⟩
  intro dOracle uOracle rows fileName r hrep p hp
  cases rows with
  | nil => simp [analyzeDataQuality] at hrep
  | cons first rest =>
    rw [report_columnAnalysis hrep] at hp
    simp only [analyzeColumns, List.mem_map] at hp
    obtain ⟨col, hcol, hpe⟩ := hp
    subst hpe
    simp only [errorIssueCount, (hpair dOracle uOracle col _).1, List.length_nil]

/-- Witness for C10: the email-count fact at an all-valid email column,
and the error-issue-count fact at a concrete analyzer run. -/
theorem c10_email_errors_unreachable_witness :
    (([Value.vstr "a@b.com"] : List Value).filter
      (fun v => v.truthy && !isValidEmail v)).length = 0 ∧
    errorIssueCount c10Col.2 = 0 :=
  ⟨c10_email_errors_unreachable.1 dateNever urlNever [Value.vstr "a@b.com"] (by decide),
   c10_email_errors_unreachable.2.2 dateNever urlNever c10Rows "f" _ rfl c10Col
     (List.mem_cons_self _ _)⟩

end DataQuality
